import Mathlib

/-!
# Verification of the quantitative backtesting subsystem

A shallow embedding, over `ℚ`, of the backtesting subsystem
(`backtest/engine.py`, `backtest/analytics.py`, `backtest/strategy.py`,
`backtest/data.py`, `backtest/persistence.py`).

Conventions of the embedding:
* pandas `Series` become `List ℚ`; a value that pandas would represent as
  `NaN` (e.g. the head of `diff`/`pct_change`, or an incomplete rolling
  window) is modelled as `none` in a `List (Option ℚ)`.  Comparisons with
  `none` are false, matching `NaN < x = False` in Python.
* Division in `ℚ` totalises `x / 0` as `0`; the Python code only divides by
  values the surrounding code keeps away from zero on the paths proved here,
  and each use is commented where the float semantics (`inf`/`NaN`) differs.
* Stateful code (the persistence store, the strategy registry, the retry
  loop) is modelled by explicit state passing.
-/

namespace Backtest

/-- One normalized bar of market data: the columns of the `DataFrame`
handed to `VectorizedEngine.run` / `generate_signals` (price columns plus
the enrichment columns added by `DataManager`). -/
structure Bar where
  close : ℚ
  volume : ℚ
  pe : ℚ
  pb : ℚ
  roe : ℚ
  peg : ℚ
  net_profit_growth : ℚ
  revenue_growth : ℚ
  gross_margin : ℚ
  debt_to_assets : ℚ
  dividend_yield : ℚ
  total_mv : ℚ
  turnover : ℚ
  receivables_days : ℚ
  fcf_yield : ℚ
  pmi : ℚ
  mkt_vol : ℚ
  volatility : ℚ
  idx_trend : ℚ
deriving DecidableEq, Inhabited

/-- `df["close"].pct_change().fillna(0)`: 0 at index 0 (the `fillna`),
`close[i]/close[i-1] - 1` afterwards. -/
def pctChange (xs : List ℚ) : List ℚ :=
  (List.range xs.length).map fun i =>
    if i = 0 then 0 else xs.getD i 0 / xs.getD (i - 1) 0 - 1

/-- `s.shift(1).fillna(0)`: 0 at index 0, `s[i-1]` afterwards. -/
def shift1 (xs : List ℚ) : List ℚ :=
  (List.range xs.length).map fun i =>
    if i = 0 then 0 else xs.getD (i - 1) 0

/-- `s.diff().abs().fillna(0)`: 0 at index 0, `|s[i] - s[i-1]|` afterwards. -/
def diffAbs (xs : List ℚ) : List ℚ :=
  (List.range xs.length).map fun i =>
    if i = 0 then 0 else |xs.getD i 0 - xs.getD (i - 1) 0|

/-- `(1 + net).cumprod() * initial_cash`. -/
def equityCurve (initial_cash : ℚ) (net : List ℚ) : List ℚ :=
  (List.range net.length).map fun t =>
    (∏ i ∈ Finset.range (t + 1), (1 + net.getD i 0)) * initial_cash

/-- `s.cummax()`: running maximum of the first `t+1` entries. -/
def cummax (xs : List ℚ) : List ℚ :=
  (List.range xs.length).map fun t =>
    Finset.sup' (Finset.range (t + 1)) ⟨t, Finset.self_mem_range_succ t⟩
      (fun i => xs.getD i 0)

/-- The columns `VectorizedEngine.run` adds to the result `DataFrame`. -/
structure RunResult where
  signal : List ℚ
  position : List ℚ
  daily_return : List ℚ
  equity : List ℚ
  drawdown : List ℚ
deriving DecidableEq

/-- `VectorizedEngine.__init__` defaults. -/
structure VectorizedEngine where
  initial_cash : ℚ := 100000
  commission : ℚ := 3 / 10000
  slippage : ℚ := 1 / 1000
deriving DecidableEq

/-- `VectorizedEngine.run(strategy, df)`, `backtest/engine.py` lines 16-62.
The strategy is an arbitrary signal generator over the input bars, as in the
source (`positions = strategy.generate_signals(df)`). -/
def VectorizedEngine.run (e : VectorizedEngine)
    (generate_signals : List Bar → List ℚ) (df : List Bar) : RunResult :=
  if df.isEmpty then ⟨[], [], [], [], []⟩
  else
    let positions := generate_signals df
    let daily_returns := pctChange (df.map Bar.close)
    let strategy_positions := shift1 positions
    let gross_returns := List.zipWith (· * ·) strategy_positions daily_returns
    let trades := diffAbs strategy_positions
    let transaction_costs := trades.map (fun x => x * (e.commission + e.slippage))
    let net_returns := List.zipWith (· - ·) gross_returns transaction_costs
    let equity_curve := equityCurve e.initial_cash net_returns
    let drawdown := List.zipWith (fun q m => q / m - 1) equity_curve (cummax equity_curve)
    ⟨positions, strategy_positions, net_returns, equity_curve, drawdown⟩

/-! ### Basic facts about the indexed series helpers -/

theorem getD_range_map (f : ℕ → ℚ) (n t : ℕ) (ht : t < n) :
    ((List.range n).map f).getD t 0 = f t := by
  rw [List.getD_eq_getElem?_getD, List.getElem?_map, List.getElem?_range ht]
  rfl

theorem length_pctChange (xs : List ℚ) : (pctChange xs).length = xs.length := by
  simp [pctChange]

theorem length_shift1 (xs : List ℚ) : (shift1 xs).length = xs.length := by
  simp [shift1]

theorem length_diffAbs (xs : List ℚ) : (diffAbs xs).length = xs.length := by
  simp [diffAbs]

theorem length_equityCurve (c : ℚ) (xs : List ℚ) :
    (equityCurve c xs).length = xs.length := by
  simp [equityCurve]

theorem length_cummax (xs : List ℚ) : (cummax xs).length = xs.length := by
  simp [cummax]

theorem shift1_getD (xs : List ℚ) (t : ℕ) (ht : t < xs.length) :
    (shift1 xs).getD t 0 = if t = 0 then 0 else xs.getD (t - 1) 0 :=
  getD_range_map _ _ _ ht

theorem pctChange_getD (xs : List ℚ) (t : ℕ) (ht : t < xs.length) :
    (pctChange xs).getD t 0 =
      if t = 0 then 0 else xs.getD t 0 / xs.getD (t - 1) 0 - 1 :=
  getD_range_map _ _ _ ht

theorem diffAbs_getD (xs : List ℚ) (t : ℕ) (ht : t < xs.length) :
    (diffAbs xs).getD t 0 =
      if t = 0 then 0 else |xs.getD t 0 - xs.getD (t - 1) 0| :=
  getD_range_map _ _ _ ht

theorem equityCurve_getD (c : ℚ) (xs : List ℚ) (t : ℕ) (ht : t < xs.length) :
    (equityCurve c xs).getD t 0 =
      (∏ i ∈ Finset.range (t + 1), (1 + xs.getD i 0)) * c :=
  getD_range_map _ _ _ ht

theorem cummax_getD (xs : List ℚ) (t : ℕ) (ht : t < xs.length) :
    (cummax xs).getD t 0 =
      Finset.sup' (Finset.range (t + 1)) ⟨t, Finset.self_mem_range_succ t⟩
        (fun i => xs.getD i 0) :=
  getD_range_map _ _ _ ht

theorem zipWith_getD (f : ℚ → ℚ → ℚ) (as bs : List ℚ) (t : ℕ)
    (ha : t < as.length) (hb : t < bs.length) :
    (List.zipWith f as bs).getD t 0 = f (as.getD t 0) (bs.getD t 0) := by
  rw [List.getD_eq_getElem?_getD, List.getElem?_zipWith,
    List.getElem?_eq_getElem ha, List.getElem?_eq_getElem hb]
  simp [List.getD_eq_getElem?_getD, List.getElem?_eq_getElem ha,
    List.getElem?_eq_getElem hb]

theorem map_getD (f : ℚ → ℚ) (as : List ℚ) (t : ℕ) (ha : t < as.length) :
    (as.map f).getD t 0 = f (as.getD t 0) := by
  rw [List.getD_eq_getElem?_getD, List.getElem?_map,
    List.getElem?_eq_getElem ha]
  simp [List.getD_eq_getElem?_getD, List.getElem?_eq_getElem ha]

theorem getD_map_lt {α β : Type} (f : α → β) (l : List α) (t : ℕ) (d : α)
    (d2 : β) (ht : t < l.length) :
    (l.map f).getD t d2 = f (l.getD t d) := by
  rw [List.getD_eq_getElem _ _ (by simpa using ht), List.getD_eq_getElem _ _ ht,
    List.getElem_map]

/-! ### Unfolding `VectorizedEngine.run` on non-empty input -/

/-- The net-return series of a run (step 6 of `run`). -/
def netReturns (e : VectorizedEngine) (signals : List ℚ) (closes : List ℚ) :
    List ℚ :=
  List.zipWith (· - ·)
    (List.zipWith (· * ·) (shift1 signals) (pctChange closes))
    ((diffAbs (shift1 signals)).map (fun x => x * (e.commission + e.slippage)))

theorem run_def (e : VectorizedEngine) (g : List Bar → List ℚ) (df : List Bar)
    (h : df ≠ []) :
    e.run g df =
      ⟨g df, shift1 (g df), netReturns e (g df) (df.map Bar.close),
        equityCurve e.initial_cash (netReturns e (g df) (df.map Bar.close)),
        List.zipWith (fun q m => q / m - 1)
          (equityCurve e.initial_cash (netReturns e (g df) (df.map Bar.close)))
          (cummax (equityCurve e.initial_cash (netReturns e (g df) (df.map Bar.close))))⟩ := by
  have hemp : df.isEmpty = false := by
    cases df with
    | nil => exact absurd rfl h
    | cons a l => rfl
  simp only [VectorizedEngine.run, hemp, Bool.false_eq_true, if_false, netReturns]

theorem length_netReturns (e : VectorizedEngine) (signals closes : List ℚ)
    (hlen : signals.length = closes.length) :
    (netReturns e signals closes).length = closes.length := by
  simp [netReturns, length_shift1, length_pctChange, length_diffAbs, hlen]

theorem netReturns_getD (e : VectorizedEngine) (signals closes : List ℚ)
    (hlen : signals.length = closes.length) (t : ℕ) (ht : t < closes.length) :
    (netReturns e signals closes).getD t 0 =
      (shift1 signals).getD t 0 * (pctChange closes).getD t 0 -
        (diffAbs (shift1 signals)).getD t 0 * (e.commission + e.slippage) := by
  have h1 : t < (shift1 signals).length := by rw [length_shift1, hlen]; exact ht
  have h2 : t < (pctChange closes).length := by rw [length_pctChange]; exact ht
  have h3 : t < (diffAbs (shift1 signals)).length := by
    rw [length_diffAbs, length_shift1, hlen]; exact ht
  have h4 : t < (List.zipWith (· * ·) (shift1 signals) (pctChange closes)).length := by
    rw [List.length_zipWith, length_shift1, length_pctChange, hlen]
    exact lt_min ht ht
  rw [netReturns, zipWith_getD _ _ _ _ h4 (by rwa [List.length_map]),
    zipWith_getD _ _ _ _ h1 h2, map_getD _ _ _ h3]

/-- With position 0 being 0, the net return on day 0 is 0. -/
theorem netReturns_getD_zero (e : VectorizedEngine) (signals closes : List ℚ)
    (hlen : signals.length = closes.length) (h0 : 0 < closes.length) :
    (netReturns e signals closes).getD 0 0 = 0 := by
  have hs : 0 < signals.length := by rw [hlen]; exact h0
  have hd : 0 < (shift1 signals).length := by rw [length_shift1]; exact hs
  rw [netReturns_getD e signals closes hlen 0 h0, shift1_getD _ _ hs,
    pctChange_getD _ _ h0, diffAbs_getD _ _ hd]
  simp

/-! ### C1, C2, C4 -/

/-- C1: for every strategy and every non-empty input series, the `position`
column of `VectorizedEngine.run` satisfies `position(0) = 0` and
`position(t) = signal(t-1)` for `0 < t`, where `signal` is the unshifted
output of `generate_signals`; the position held on day `t` never depends on
the signal computed for day `t`. -/
theorem position_shift_invariant (e : VectorizedEngine)
    (generate_signals : List Bar → List ℚ) (df : List Bar) (hne : df ≠ [])
    (hlen : (generate_signals df).length = df.length) :
    (e.run generate_signals df).position.getD 0 0 = 0 ∧
    ∀ t, 0 < t → t < df.length →
      (e.run generate_signals df).position.getD t 0 =
        (e.run generate_signals df).signal.getD (t - 1) 0 := by
  rw [run_def e generate_signals df hne]
  constructor
  · have h0 : 0 < df.length := List.length_pos.mpr hne
    have hs : 0 < (generate_signals df).length := by rw [hlen]; exact h0
    rw [shift1_getD _ _ hs]
    simp
  · intro t ht htlen
    have hs : t < (generate_signals df).length := by rw [hlen]; exact htlen
    rw [shift1_getD _ _ hs]
    simp [Nat.pos_iff_ne_zero.mp ht]

/-- Closed witness for `position_shift_invariant` at a concrete two-bar
input and the constant-one strategy. -/
theorem position_shift_invariant_witness :
    (({} : VectorizedEngine).run (fun df => df.map (fun _ => (1 : ℚ)))
        [default, default]).position.getD 0 0 = 0 ∧
    ∀ t, 0 < t → t < ([default, default] : List Bar).length →
      (({} : VectorizedEngine).run (fun df => df.map (fun _ => (1 : ℚ)))
          [default, default]).position.getD t 0 =
        (({} : VectorizedEngine).run (fun df => df.map (fun _ => (1 : ℚ)))
            [default, default]).signal.getD (t - 1) 0 :=
  position_shift_invariant {} (fun df => df.map (fun _ => (1 : ℚ)))
    [default, default] (by simp) (by simp)

/-- C4: for every strategy and every choice of cost parameters, running the
engine on an empty input series returns the empty result (all columns
empty); `run` is a total pure function, so no error is raised and no other
effect occurs. -/
theorem run_empty_input (e : VectorizedEngine)
    (generate_signals : List Bar → List ℚ) :
    e.run generate_signals [] = ⟨[], [], [], [], []⟩ := rfl

/-- A bar whose close is `c` and whose other columns are zero, for concrete
test inputs. -/
def testBar (c : ℚ) : Bar :=
  ⟨c, 0, 0, 0, 0, 0, 0, 0, 0, 0, 0, 0, 0, 0, 0, 0, 0, 0, 0⟩

/-- The always-fully-invested strategy, for concrete test inputs. -/
def constOne : List Bar → List ℚ := fun df => df.map (fun _ => (1 : ℚ))

/-- A concrete two-bar input series. -/
def testDf : List Bar := [testBar 100, testBar 110]

/-- C2: for every strategy, every non-empty input series and every cost
configuration, `daily_return(t) = position(t) * (close(t)/close(t-1) - 1)
- |position(t) - position(t-1)| * (commission + slippage)` with
`position(0)` implicitly `0` and the `t = 0` price return taken as `0`,
and `equity(t) = initial_cash * ∏_{i ≤ t} (1 + daily_return(i))`. -/
theorem daily_return_and_equity_formula (e : VectorizedEngine)
    (generate_signals : List Bar → List ℚ) (df : List Bar) (hne : df ≠ [])
    (hlen : (generate_signals df).length = df.length)
    (t : ℕ) (ht : t < df.length) :
    (e.run generate_signals df).daily_return.getD t 0 =
      (e.run generate_signals df).position.getD t 0 *
        (if t = 0 then 0
         else (df.getD t default).close / (df.getD (t - 1) default).close - 1) -
      |(e.run generate_signals df).position.getD t 0 -
          (if t = 0 then 0
           else (e.run generate_signals df).position.getD (t - 1) 0)| *
        (e.commission + e.slippage) ∧
    (e.run generate_signals df).equity.getD t 0 =
      e.initial_cash *
        ∏ i ∈ Finset.range (t + 1),
          (1 + (e.run generate_signals df).daily_return.getD i 0) := by
  have hclen : (df.map Bar.close).length = df.length := List.length_map _ _
  have hlen' : (generate_signals df).length = (df.map Bar.close).length := by
    rw [hclen, hlen]
  have htc : t < (df.map Bar.close).length := by rw [hclen]; exact ht
  have hst : t < (generate_signals df).length := by rw [hlen]; exact ht
  have hsh : t < (shift1 (generate_signals df)).length := by
    rw [length_shift1]; exact hst
  rw [run_def e generate_signals df hne]
  constructor
  · rw [netReturns_getD e _ _ hlen' t htc, shift1_getD _ _ hst,
      pctChange_getD _ _ htc, diffAbs_getD _ _ hsh]
    by_cases h0 : t = 0
    · subst h0
      simp
    · have ht1 : t - 1 < df.length := lt_of_le_of_lt (Nat.sub_le _ _) ht
      have hst1 : t - 1 < (generate_signals df).length := by rw [hlen]; exact ht1
      rw [if_neg h0, if_neg h0, if_neg h0, if_neg h0, shift1_getD _ _ hst,
        shift1_getD _ _ hst1, if_neg h0,
        getD_map_lt Bar.close df t default 0 ht,
        getD_map_lt Bar.close df (t - 1) default 0 ht1]
      simp [h0]
  · have hnlen : t < (netReturns e (generate_signals df) (df.map Bar.close)).length := by
      rw [length_netReturns e _ _ hlen']; exact htc
    rw [equityCurve_getD _ _ _ hnlen, mul_comm]

/-- Closed witness for `daily_return_and_equity_formula` at a concrete
two-bar input, the constant-one strategy, and `t = 1`. -/
theorem daily_return_and_equity_formula_witness :
    (({} : VectorizedEngine).run constOne testDf).daily_return.getD 1 0 =
      (({} : VectorizedEngine).run constOne testDf).position.getD 1 0 *
        (if 1 = 0 then 0
         else (testDf.getD 1 default).close / (testDf.getD (1 - 1) default).close - 1) -
      |(({} : VectorizedEngine).run constOne testDf).position.getD 1 0 -
          (if 1 = 0 then 0
           else (({} : VectorizedEngine).run constOne testDf).position.getD (1 - 1) 0)| *
        (({} : VectorizedEngine).commission + ({} : VectorizedEngine).slippage) ∧
    (({} : VectorizedEngine).run constOne testDf).equity.getD 1 0 =
      ({} : VectorizedEngine).initial_cash *
        ∏ i ∈ Finset.range (1 + 1),
          (1 + (({} : VectorizedEngine).run constOne testDf).daily_return.getD i 0) :=
  daily_return_and_equity_formula {} constOne testDf (by simp [testDf])
    (by simp [constOne]) 1 (by simp [testDf])

/-- C3: the `drawdown` column equals `equity(t) / max(equity(0..t)) - 1`;
it is always `≤ 0`, and it is `0` exactly when `equity(t)` is a running
maximum of the equity curve.  Stated for a positive initial capital (the
engine's default is `100000`). -/
theorem drawdown_bound (e : VectorizedEngine)
    (generate_signals : List Bar → List ℚ) (df : List Bar) (hne : df ≠ [])
    (hlen : (generate_signals df).length = df.length)
    (hcash : 0 < e.initial_cash) (t : ℕ) (ht : t < df.length) :
    (e.run generate_signals df).drawdown.getD t 0 =
      (e.run generate_signals df).equity.getD t 0 /
        (Finset.sup' (Finset.range (t + 1)) ⟨t, Finset.self_mem_range_succ t⟩
          (fun i => (e.run generate_signals df).equity.getD i 0)) - 1 ∧
    (e.run generate_signals df).drawdown.getD t 0 ≤ 0 ∧
    ((e.run generate_signals df).drawdown.getD t 0 = 0 ↔
      ∀ i ≤ t, (e.run generate_signals df).equity.getD i 0 ≤
        (e.run generate_signals df).equity.getD t 0) := by
  have hclen : (df.map Bar.close).length = df.length := List.length_map _ _
  have hlen' : (generate_signals df).length = (df.map Bar.close).length := by
    rw [hclen, hlen]
  have h0df : 0 < df.length := List.length_pos.mpr hne
  rw [run_def e generate_signals df hne]
  dsimp only
  set net := netReturns e (generate_signals df) (df.map Bar.close) with hnet
  set E := equityCurve e.initial_cash net with hE
  have hnlen : net.length = df.length := by
    rw [hnet, length_netReturns e _ _ hlen', hclen]
  have hElen : E.length = df.length := by rw [hE, length_equityCurve, hnlen]
  have htE : t < E.length := by rw [hElen]; exact ht
  have htn : t < net.length := by rw [hnlen]; exact ht
  have hcm : t < (cummax E).length := by rw [length_cummax]; exact htE
  -- the first equity value is the initial capital
  have hE0 : E.getD 0 0 = e.initial_cash := by
    have h0n : 0 < net.length := by rw [hnlen]; exact h0df
    rw [hE, equityCurve_getD _ _ _ h0n]
    have : net.getD 0 0 = 0 := by
      rw [hnet]
      exact netReturns_getD_zero e _ _ hlen' (by rw [hclen]; exact h0df)
    rw [Finset.prod_range_one, this]
    ring
  set M := Finset.sup' (Finset.range (t + 1)) ⟨t, Finset.self_mem_range_succ t⟩
    (fun i => E.getD i 0) with hM
  have hMpos : 0 < M := by
    have h0mem : 0 ∈ Finset.range (t + 1) := Finset.mem_range.mpr (Nat.succ_pos t)
    have := Finset.le_sup' (fun i => E.getD i 0) h0mem
    rw [hE0] at this
    exact lt_of_lt_of_le hcash this
  have hEleM : E.getD t 0 ≤ M :=
    Finset.le_sup' (fun i => E.getD i 0) (Finset.self_mem_range_succ t)
  have hdd : (List.zipWith (fun q m => q / m - 1) E (cummax E)).getD t 0 =
      E.getD t 0 / M - 1 := by
    rw [zipWith_getD _ _ _ _ htE hcm, cummax_getD _ _ htE]
  refine ⟨hdd, ?_, ?_⟩
  · rw [hdd]
    have : E.getD t 0 / M ≤ 1 := (div_le_one hMpos).mpr hEleM
    linarith
  · rw [hdd, sub_eq_zero, div_eq_one_iff_eq (ne_of_gt hMpos)]
    constructor
    · intro hEq i hi
      have hmem : i ∈ Finset.range (t + 1) := Finset.mem_range.mpr (Nat.lt_succ_of_le hi)
      have h2 := Finset.le_sup' (fun i => E.getD i 0) hmem
      rw [← hM, ← hEq] at h2
      exact h2
    · intro hAll
      refine le_antisymm hEleM (Finset.sup'_le _ _ ?_)
      intro i hi
      exact hAll i (Nat.lt_succ_iff.mp (Finset.mem_range.mp hi))

/-- Closed witness for `drawdown_bound` at a concrete two-bar input, the
constant-one strategy, the default engine, and `t = 1`. -/
theorem drawdown_bound_witness :
    (({} : VectorizedEngine).run constOne testDf).drawdown.getD 1 0 =
      (({} : VectorizedEngine).run constOne testDf).equity.getD 1 0 /
        (Finset.sup' (Finset.range (1 + 1)) ⟨1, Finset.self_mem_range_succ 1⟩
          (fun i => (({} : VectorizedEngine).run constOne testDf).equity.getD i 0)) - 1 ∧
    (({} : VectorizedEngine).run constOne testDf).drawdown.getD 1 0 ≤ 0 ∧
    ((({} : VectorizedEngine).run constOne testDf).drawdown.getD 1 0 = 0 ↔
      ∀ i ≤ 1, (({} : VectorizedEngine).run constOne testDf).equity.getD i 0 ≤
        (({} : VectorizedEngine).run constOne testDf).equity.getD 1 0) :=
  drawdown_bound {} constOne testDf (by simp [testDf]) (by simp [constOne])
    (by norm_num) 1 (by simp [testDf])

/-! ## Performance analytics (`backtest/analytics.py`)

Only the `sharpe` entry of `PerformanceAnalytics.calculate_metrics` is
embedded here (line 32); the other metrics involve real powers and square
roots that play no role in the claims below. -/

/-- `series.mean()`. -/
def seriesMean (xs : List ℚ) : ℚ := xs.sum / xs.length

/-- The sample variance, i.e. `series.std() ** 2` with pandas' default
`ddof = 1`; `none` models the `NaN` that pandas returns for fewer than two
observations. -/
def sampleVar (xs : List ℚ) : Option ℚ :=
  if xs.length ≤ 1 then none
  else some ((xs.map (fun x => (x - seriesMean xs) ^ 2)).sum / ((xs.length : ℚ) - 1))

/-- The exact value of the float expression computed for `sharpe` in
`calculate_metrics`: `nan` is a float NaN, `zero` the guarded literal `0`,
and `ratio m v` the irrational value `m / √v * √252` produced by the
division branch (represented symbolically because `ℚ` has no square
roots). -/
inductive SharpeVal where
  | nan : SharpeVal
  | zero : SharpeVal
  | ratio (m v : ℚ) : SharpeVal
deriving DecidableEq

/-- Line 32 of `backtest/analytics.py`:
`sharpe = (returns.mean() / returns.std() * np.sqrt(252)) if returns.std() != 0 else 0`.
`returns.std()` is `NaN` when the series has fewer than two entries; since
`NaN != 0` is `True` in Python, that case takes the division branch and
produces a NaN.  Otherwise `std ≠ 0` iff the variance `v ≠ 0`, and the
division branch yields `mean / √v * √252`. -/
def sharpe (returns : List ℚ) : SharpeVal :=
  match sampleVar returns with
  | none => .nan
  | some v => if v = 0 then .zero else .ratio (seriesMean returns) v

/-- C5: for every simulation result whose `daily_return` series has zero
sample standard deviation (in particular a constant-zero return series of
at least two bars), the sharpe computed by `calculate_metrics` is the
guarded exact `0` — never NaN or infinity — and the division branch is
only ever taken with a nonzero standard deviation, so its divide-by-zero
case is unreachable.  (The surfaced value is `round(sharpe, 3)`, and
`round(0, 3) = 0`.) -/
theorem sharpe_zero_variance_guard (r : RunResult)
    (h : sampleVar r.daily_return = some 0) :
    sharpe r.daily_return = SharpeVal.zero ∧
    ∀ (r2 : RunResult) (m v : ℚ),
      sharpe r2.daily_return = SharpeVal.ratio m v → v ≠ 0 := by
  constructor
  · unfold sharpe
    rw [h]
    simp
  · intro r2 m v hr
    cases hvar : sampleVar r2.daily_return with
    | none =>
      simp only [sharpe, hvar] at hr
      exact absurd hr (by simp)
    | some w =>
      simp only [sharpe, hvar] at hr
      by_cases hw : w = 0
      · rw [if_pos hw] at hr
        exact absurd hr (by simp)
      · rw [if_neg hw] at hr
        injection hr with h1 h2
        rw [← h2]
        exact hw

/-- Closed witness for `sharpe_zero_variance_guard` on a result whose
daily returns are the constant-zero two-bar series. -/
theorem sharpe_zero_variance_guard_witness :
    sampleVar (RunResult.mk [] [] [0, 0] [] []).daily_return = some 0 ∧
    sharpe (RunResult.mk [] [] [0, 0] [] []).daily_return = SharpeVal.zero :=
  ⟨by norm_num [sampleVar, seriesMean],
    (sharpe_zero_variance_guard (RunResult.mk [] [] [0, 0] [] [])
      (by norm_num [sampleVar, seriesMean])).1⟩

/-! ## Strategy registry (`backtest/strategy.py` lines 34-39) -/

/-- Python `dict` assignment `d[k] = v`: replace the value under an existing
key, otherwise append a new entry. -/
def dictInsert (reg : List (String × String)) (k v : String) :
    List (String × String) :=
  if reg.any (fun p => p.1 == k) then
    reg.map (fun p => if p.1 == k then (k, v) else p)
  else reg ++ [(k, v)]

/-- Python `d.get(k)`: the value under the (unique) key `k`, if present. -/
def dictFind (reg : List (String × String)) (k : String) : Option String :=
  (reg.find? (fun p => p.1 == k)).map (fun p => p.2)

/-- `register_strategy(cls)` (`backtest/strategy.py` lines 37-39):
`STRATEGY_REGISTRY[cls.name] = cls`, a plain dict assignment with no
duplicate check.  The class object is identified by an opaque string. -/
def register_strategy (reg : List (String × String)) (name cls : String) :
    List (String × String) :=
  dictInsert reg name cls

theorem dictFind_map_replace (reg : List (String × String)) (k v : String)
    (h : reg.any (fun p => p.1 == k) = true) :
    dictFind (reg.map (fun p => if p.1 == k then (k, v) else p)) k = some v := by
  induction reg with
  | nil => simp at h
  | cons p l ih =>
    by_cases hp : p.1 == k
    · simp [dictFind, List.find?, hp]
    · have h2 : l.any (fun p => p.1 == k) = true := by
        rcases List.any_eq_true.mp h with ⟨x, hx, hxk⟩
        rcases List.mem_cons.mp hx with rfl | hxl
        · exact absurd hxk (by simpa using hp)
        · exact List.any_eq_true.mpr ⟨x, hxl, hxk⟩
      have ih2 := ih h2
      simpa [dictFind, List.find?, hp] using ih2

theorem dictFind_append_new (reg : List (String × String)) (k v : String)
    (h : reg.any (fun p => p.1 == k) = false) :
    dictFind (reg ++ [(k, v)]) k = some v := by
  induction reg with
  | nil => simp [dictFind, List.find?]
  | cons p l ih =>
    rw [List.any_cons, Bool.or_eq_false_iff] at h
    obtain ⟨hp, h2⟩ := h
    simpa [dictFind, List.find?, hp] using ih h2

theorem dictFind_dictInsert (reg : List (String × String)) (k v : String) :
    dictFind (dictInsert reg k v) k = some v := by
  unfold dictInsert
  by_cases h : reg.any (fun p => p.1 == k)
  · rw [if_pos h]
    exact dictFind_map_replace reg k v h
  · rw [if_neg h]
    exact dictFind_append_new reg k v (Bool.eq_false_iff.mpr h)

/-- C7 counterexample: registering a second class under an
already-registered name is not rejected — registration succeeds and the
registry no longer maps the name to the first class. -/
theorem register_strategy_duplicate_cex :
    register_strategy (register_strategy [] "ma_crossover" "FirstClass")
        "ma_crossover" "SecondClass" = [("ma_crossover", "SecondClass")] ∧
    dictFind (register_strategy (register_strategy [] "ma_crossover" "FirstClass")
        "ma_crossover" "SecondClass") "ma_crossover" ≠ some "FirstClass" := by
  constructor
  · decide
  · decide

/-- C7 amended: `register_strategy` silently overwrites: after registering
two classes under the same name (over any starting registry), the registry
maps that name to the most recently registered class. -/
theorem register_strategy_overwrites (reg : List (String × String))
    (name c1 c2 : String) :
    dictFind (register_strategy (register_strategy reg name c1) name c2)
      name = some c2 :=
  dictFind_dictInsert _ name c2

/-! ## Data provider retry (`backtest/data.py`)

The `time.sleep` backoff in `retry` only affects wall-clock time and is not
modelled.  `fetch_akshare_data`'s upstream call (`ak.stock_zh_a_hist`) is an
explicit argument, one outcome per attempt; the parquet cache is an explicit
optional argument. -/

/-- A raw upstream row (`ak.stock_zh_a_hist` output, Chinese column names);
`opn` stands for the `开盘` (open) column, `open` being reserved in Lean. -/
structure AkRow where
  dt : ℤ
  opn : ℚ
  high : ℚ
  low : ℚ
  close : ℚ
  volume : ℚ
  turnover : ℚ
deriving DecidableEq

/-- A normalized row of the unified schema
`(dt, open, high, low, close, volume, adj_close, turnover)`. -/
structure NormRow where
  dt : ℤ
  opn : ℚ
  high : ℚ
  low : ℚ
  close : ℚ
  volume : ℚ
  adj_close : ℚ
  turnover : ℚ
deriving DecidableEq

/-- Column renaming/selection, `adj_close = close`, and
`sort_values("dt")` (`backtest/data.py` lines 66-82). -/
def normalizeRows (df : List AkRow) : List NormRow :=
  List.insertionSort (fun a b => a.dt ≤ b.dt)
    (df.map fun r => ⟨r.dt, r.opn, r.high, r.low, r.close, r.volume, r.close, r.turnover⟩)

/-- The `while retries < max_retries` loop of the `retry` decorator
(`backtest/data.py` lines 15-27), with `fuel = max_retries - retries`:
a successful attempt returns its value; a raising attempt is retried unless
it was the last permitted one, whose exception is re-raised; if the loop
never runs (`max_retries = 0`) the wrapper returns Python `None`,
modelled as `Except.ok none`. -/
def retryGo {α : Type} (attempts : ℕ → Except String α) :
    ℕ → ℕ → Except String (Option α)
  | _, 0 => .ok none
  | k, fuel + 1 =>
    match attempts k with
    | .ok a => .ok (some a)
    | .error e => if fuel = 0 then .error e else retryGo attempts (k + 1) fuel

/-- The `retry(max_retries=3)` wrapper applied to a function whose k-th
call behaves as `attempts k`. -/
def retryWrap {α : Type} (attempts : ℕ → Except String α) (max_retries : ℕ) :
    Except String (Option α) :=
  retryGo attempts 0 max_retries

/-- One un-retried call of `fetch_akshare_data`'s body (lines 49-86): a
cache hit returns the cached frame; otherwise the upstream result is
normalized — but an upstream frame with no rows is returned to the caller
as an empty frame (`if df.empty: return pd.DataFrame()`), not an error. -/
def fetch_body (cache : Option (List NormRow))
    (upstream : Except String (List AkRow)) : Except String (List NormRow) :=
  match cache with
  | some cached => .ok cached
  | none =>
    match upstream with
    | .error e => .error e
    | .ok df => if df.isEmpty then .ok [] else .ok (normalizeRows df)

/-- `fetch_akshare_data` = the body wrapped in `@retry(max_retries=3)`. -/
def fetch_akshare_data (cache : Option (List NormRow))
    (upstream : ℕ → Except String (List AkRow)) (max_retries : ℕ := 3) :
    Except String (Option (List NormRow)) :=
  retryWrap (fun k => fetch_body cache (upstream k)) max_retries

/-- C8 counterexample: when the upstream source returns no rows (without
raising), `fetch_akshare_data` silently returns an empty series on the very
first attempt — no error is surfaced, and no `DataUnavailable` error type
exists anywhere in the repository. -/
theorem fetch_empty_upstream_cex :
    fetch_akshare_data none (fun _ => Except.ok ([] : List AkRow)) 3 =
      Except.ok (some ([] : List NormRow)) := rfl

theorem retryGo_all_errors {α : Type} (attempts : ℕ → Except String α)
    (es : ℕ → String) (h : ∀ k, attempts k = .error (es k)) :
    ∀ fuel k, 0 < fuel → retryGo attempts k fuel = .error (es (k + fuel - 1)) := by
  intro fuel
  induction fuel with
  | zero => intro k h0; exact absurd h0 (by simp)
  | succ f ih =>
    intro k _
    rw [retryGo, h k]
    dsimp only
    by_cases hf : f = 0
    · subst hf; simp
    · rw [if_neg hf, ih (k + 1) (Nat.pos_of_ne_zero hf)]
      have harg : k + 1 + f - 1 = k + (f + 1) - 1 := by omega
      rw [harg]

/-- C8 amended: raising attempts are retried and, once the retry bound is
exhausted, the final exception is surfaced to the caller; but an upstream
reply with no rows is not treated as a failure: the call returns an empty
series to the caller at once (the repository defines no `DataUnavailable`
error). -/
theorem fetch_error_vs_empty (upstream : ℕ → Except String (List AkRow))
    (es : ℕ → String) (max_retries : ℕ) (hm : 0 < max_retries) :
    (upstream 0 = .ok [] →
      fetch_akshare_data none upstream max_retries = .ok (some [])) ∧
    ((∀ k, upstream k = .error (es k)) →
      fetch_akshare_data none upstream max_retries =
        .error (es (max_retries - 1))) := by
  constructor
  · intro h0
    obtain ⟨m, rfl⟩ : ∃ m, max_retries = m + 1 :=
      ⟨max_retries - 1, by omega⟩
    rw [fetch_akshare_data, retryWrap, retryGo, h0]
    rfl
  · intro hall
    have hbody : ∀ k, fetch_body none (upstream k) = .error (es k) := by
      intro k
      rw [hall k]
      rfl
    rw [fetch_akshare_data, retryWrap,
      retryGo_all_errors _ es hbody max_retries 0 hm]
    norm_num

/-- Closed witness for `fetch_error_vs_empty`: an upstream that raises on
every attempt has its final exception surfaced after the default three
attempts. -/
theorem fetch_error_vs_empty_witness :
    fetch_akshare_data none (fun _ => Except.error "upstream down") 3 =
      Except.error "upstream down" :=
  (fetch_error_vs_empty (fun _ => Except.error "upstream down")
    (fun _ => "upstream down") 3 (by norm_num)).2 (fun _ => rfl)

/-! ## MD5 (`hashlib.md5`), needed by `BacktestPersistence.save_result`

A direct implementation of RFC 1321 over byte lists (`ℕ` values `< 256`),
words as `ℕ` reduced mod `2 ^ 32`. -/

namespace MD5

/-- Per-round left-rotate amounts. -/
def shiftAmounts : List ℕ := [
  7, 12, 17, 22, 7, 12, 17, 22, 7, 12, 17, 22, 7, 12, 17, 22,
  5, 9, 14, 20, 5, 9, 14, 20, 5, 9, 14, 20, 5, 9, 14, 20,
  4, 11, 16, 23, 4, 11, 16, 23, 4, 11, 16, 23, 4, 11, 16, 23,
  6, 10, 15, 21, 6, 10, 15, 21, 6, 10, 15, 21, 6, 10, 15, 21]

/-- The 64 sine-derived constants `floor(|sin(i+1)| * 2^32)`. -/
def sineTable : List ℕ := [
  0xd76aa478, 0xe8c7b756, 0x242070db, 0xc1bdceee,
  0xf57c0faf, 0x4787c62a, 0xa8304613, 0xfd469501,
  0x698098d8, 0x8b44f7af, 0xffff5bb1, 0x895cd7be,
  0x6b901122, 0xfd987193, 0xa679438e, 0x49b40821,
  0xf61e2562, 0xc040b340, 0x265e5a51, 0xe9b6c7aa,
  0xd62f105d, 0x02441453, 0xd8a1e681, 0xe7d3fbc8,
  0x21e1cde6, 0xc33707d6, 0xf4d50d87, 0x455a14ed,
  0xa9e3e905, 0xfcefa3f8, 0x676f02d9, 0x8d2a4c8a,
  0xfffa3942, 0x8771f681, 0x6d9d6122, 0xfde5380c,
  0xa4beea44, 0x4bdecfa9, 0xf6bb4b60, 0xbebfbc70,
  0x289b7ec6, 0xeaa127fa, 0xd4ef3085, 0x04881d05,
  0xd9d4d039, 0xe6db99e5, 0x1fa27cf8, 0xc4ac5665,
  0xf4292244, 0x432aff97, 0xab9423a7, 0xfc93a039,
  0x655b59c3, 0x8f0ccc92, 0xffeff47d, 0x85845dd1,
  0x6fa87e4f, 0xfe2ce6e0, 0xa3014314, 0x4e0811a1,
  0xf7537e82, 0xbd3af235, 0x2ad7d2bb, 0xeb86d391]

def M32 : ℕ := 2 ^ 32

/-- 32-bit left rotation. -/
def rotl (x n : ℕ) : ℕ := ((x <<< n) ||| (x >>> (32 - n))) % M32

/-- 32-bit complement. -/
def not32 (x : ℕ) : ℕ := 0xffffffff ^^^ x

def mixF (b c d : ℕ) : ℕ := (b &&& c) ||| (not32 b &&& d)
def mixG (b c d : ℕ) : ℕ := (d &&& b) ||| (not32 d &&& c)
def mixH (b c d : ℕ) : ℕ := b ^^^ c ^^^ d
def mixI (b c d : ℕ) : ℕ := c ^^^ (b ||| not32 d)

/-- One of the 64 per-block operations; `m` is the current block's 16
little-endian words. -/
def step (m : List ℕ) (st : ℕ × ℕ × ℕ × ℕ) (i : ℕ) : ℕ × ℕ × ℕ × ℕ :=
  let a := st.1
  let b := st.2.1
  let c := st.2.2.1
  let d := st.2.2.2
  let f :=
    if i < 16 then mixF b c d
    else if i < 32 then mixG b c d
    else if i < 48 then mixH b c d
    else mixI b c d
  let g :=
    if i < 16 then i
    else if i < 32 then (5 * i + 1) % 16
    else if i < 48 then (3 * i + 5) % 16
    else (7 * i) % 16
  let f2 := (f + a + sineTable.getD i 0 + m.getD g 0) % M32
  (d, (b + rotl f2 (shiftAmounts.getD i 0)) % M32, b, c)

/-- Process one 64-byte block given as its 16 words. -/
def processBlock (st : ℕ × ℕ × ℕ × ℕ) (m : List ℕ) : ℕ × ℕ × ℕ × ℕ :=
  let r := (List.range 64).foldl (step m) st
  ((st.1 + r.1) % M32, (st.2.1 + r.2.1) % M32,
   (st.2.2.1 + r.2.2.1) % M32, (st.2.2.2 + r.2.2.2) % M32)

/-- RFC 1321 padding: `0x80`, zeros to 56 mod 64, 64-bit little-endian
original bit length. -/
def padMessage (msg : List ℕ) : List ℕ :=
  let lenBits := (8 * msg.length) % 2 ^ 64
  let zeros := (120 - (msg.length + 1) % 64) % 64
  msg ++ [0x80] ++ List.replicate zeros 0 ++
    (List.range 8).map (fun i => (lenBits >>> (8 * i)) % 256)

/-- Split a (padded) byte list into its 64-byte blocks. -/
def toBlocks (l : List ℕ) : List (List ℕ) :=
  (List.range (l.length / 64)).map (fun i => (l.drop (64 * i)).take 64)

/-- The 16 little-endian words of a 64-byte block. -/
def blockWords (blk : List ℕ) : List ℕ :=
  (List.range 16).map (fun j =>
    blk.getD (4 * j) 0 + 256 * blk.getD (4 * j + 1) 0 +
      65536 * blk.getD (4 * j + 2) 0 + 16777216 * blk.getD (4 * j + 3) 0)

/-- The four state words of the digest of a byte message. -/
def md5Words (msg : List ℕ) : ℕ × ℕ × ℕ × ℕ :=
  (toBlocks (padMessage msg)).foldl
    (fun st blk => processBlock st (blockWords blk))
    (0x67452301, 0xefcdab89, 0x98badcfe, 0x10325476)

def hexChar (n : ℕ) : Char :=
  if n < 10 then Char.ofNat (48 + n) else Char.ofNat (87 + n)

def byteHexChars (b : ℕ) : List Char := [hexChar (b / 16), hexChar (b % 16)]

def wordBytesLE (w : ℕ) : List ℕ :=
  [w % 256, (w >>> 8) % 256, (w >>> 16) % 256, (w >>> 24) % 256]

/-- `hashlib.md5(msg).hexdigest()`. -/
def hexdigest (msg : List ℕ) : String :=
  let r := md5Words msg
  String.mk ((([r.1, r.2.1, r.2.2.1, r.2.2.2].map wordBytesLE).flatten.map
    byteHexChars).flatten)

/-- UTF-8 bytes of a string; all strings hashed by the persistence layer
here are ASCII, for which the code points are the bytes. -/
def strBytes (s : String) : List ℕ := s.data.map Char.toNat

end MD5

/-! ## Run persistence (`backtest/persistence.py`) -/

/-- `json.dumps(d, sort_keys=True)` for a flat dict of integer values
(strategy parameters and data descriptors), with Python's default
separators. -/
def jsonDumps (d : List (String × ℤ)) : String :=
  "\x7b" ++
    String.intercalate ", "
      ((List.insertionSort (fun a b : String × ℤ => ¬ b.1 < a.1) d).map
        (fun p => "\"" ++ p.1 ++ "\": " ++ toString p.2)) ++
    "\x7d"

/-- The record written by `save_result` (`backtest/persistence.py`
lines 32-39). -/
structure RunRecord where
  run_id : String
  timestamp : String
  strategy : String
  parameters : List (String × ℤ)
  data_info : List (String × ℤ)
  metrics : List (String × ℤ)
deriving DecidableEq

/-- The file basename `f"{strategy_name}_{timestamp}_{run_id}.json"`. -/
def save_filename (strategy_name timestamp run_id : String) : String :=
  strategy_name ++ "_" ++ timestamp ++ "_" ++ run_id ++ ".json"

/-- `BacktestPersistence.save_result` (`backtest/persistence.py` lines
17-44).  The wall-clock timestamp (`datetime.now().strftime(...)`) is an
explicit argument; the function's Python return value is the written file's
path, modelled here as the first component, paired with the record written
into that file. -/
def save_result (storage_dir strategy_name : String)
    (params metrics data_info : List (String × ℤ)) (timestamp : String) :
    String × RunRecord :=
  let id_str := strategy_name ++ "_" ++ jsonDumps params ++ "_" ++
    jsonDumps data_info
  let run_id := (MD5.hexdigest (MD5.strBytes id_str)).take 8
  (storage_dir ++ "/" ++ save_filename strategy_name timestamp run_id,
   ⟨run_id, timestamp, strategy_name, params, data_info, metrics⟩)

/-- Save paths with the same directory, strategy name and run id but
different timestamps of equal length differ: the path embeds the
timestamp. -/
theorem save_path_inj_timestamp (dir name rid t1 t2 : String)
    (hlen : t1.data.length = t2.data.length)
    (h : dir ++ "/" ++ save_filename name t1 rid =
      dir ++ "/" ++ save_filename name t2 rid) :
    t1 = t2 := by
  have h2 := congrArg String.data h
  simp only [save_filename, String.data_append, List.append_assoc] at h2
  have h3 := List.append_cancel_left h2
  have h4 := List.append_cancel_left h3
  have h5 := List.append_cancel_left h4
  have h6 := List.append_cancel_left h5
  exact String.ext (List.append_inj_left h6 hlen)

/-- Two saves of identical `(strategy_name, params, data_info)` at
timestamps of equal length return equal paths only if the timestamps are
equal: the returned path embeds the wall-clock timestamp. -/
theorem save_result_path_determines_timestamp (storage_dir strategy_name : String)
    (params m1 m2 data_info : List (String × ℤ)) (t1 t2 : String)
    (hlen : t1.data.length = t2.data.length)
    (hpath : (save_result storage_dir strategy_name params m1 data_info t1).1 =
      (save_result storage_dir strategy_name params m2 data_info t2).1) :
    t1 = t2 :=
  save_path_inj_timestamp storage_dir strategy_name _ t1 t2 hlen hpath

/-- C9 counterexample: two calls to `save_result` with identical
`(strategy_name, parameters, data_descriptor)` but different wall-clock
timestamps return different values — the returned value is the timestamped
file path, not a timestamp-independent id. -/
theorem save_result_return_differs_cex :
    (save_result ".backtest_results" "ma_crossover" [] [] []
        "20260101_000000").1 ≠
    (save_result ".backtest_results" "ma_crossover" [] [] []
        "20260102_000000").1 := by
  intro hEq
  have := save_result_path_determines_timestamp ".backtest_results"
    "ma_crossover" [] [] [] [] "20260101_000000" "20260102_000000"
    (by decide) hEq
  exact absurd this (by decide)

/-- C9 amended: the `run_id` stored in the record (and embedded in the
filename) is a deterministic function of `(strategy_name, parameters,
data_info)` alone — independent of the timestamp, the metrics and the
storage directory — so identical repeated backtests share a run id; the
value `save_result` returns, however, is the file path, which embeds the
per-call wall-clock timestamp and so differs between calls made at
different times. -/
theorem run_id_deterministic (dir1 dir2 strategy_name : String)
    (params data_info m1 m2 : List (String × ℤ)) (t1 t2 : String) :
    (save_result dir1 strategy_name params m1 data_info t1).2.run_id =
    (save_result dir2 strategy_name params m2 data_info t2).2.run_id := rfl

/-! ## `BacktestPersistence.list_results` (`backtest/persistence.py`
lines 46-55) -/

/-- Python truthiness of the `strategy_name` argument: `None` and the
empty string are falsy. -/
def truthy : Option String → Bool
  | none => false
  | some s => s != ""

/-- Python `str.startswith`. -/
def startswith (s q : String) : Bool := q.data.isPrefixOf s.data

/-- Python `str.endswith`. -/
def endswith (s q : String) : Bool := q.data.isSuffixOf s.data

/-- The per-file filter of `list_results` (lines 50-52): keep `.json`
files, and — when a truthy `strategy_name` was given — only filenames
starting with it. -/
def keep_file (strategy_name : Option String) (filename : String) : Bool :=
  endswith filename ".json" &&
    !(truthy strategy_name && !startswith filename (strategy_name.getD ""))

/-- `list_results` over an explicit store: the association of file basename
to the record parsed from that file (`os.listdir` + `json.load`), sorted by
timestamp, most recent first. -/
def list_results (store : List (String × RunRecord))
    (strategy_name : Option String) : List RunRecord :=
  List.insertionSort (fun a b : RunRecord => ¬ b.timestamp < a.timestamp)
    ((store.filter (fun p => keep_file strategy_name p.1)).map (fun p => p.2))

/-- On `.json` filenames, the `list_results` filter for a non-`None` query
is exactly "filename starts with the query" (for the empty-string query the
Python truthiness check skips the filter, but every filename starts with
the empty string, so the equation still holds). -/
theorem keep_file_eq (q f : String) (hj : endswith f ".json" = true) :
    keep_file (some q) f = startswith f q := by
  have hred : keep_file (some q) f =
      (endswith f ".json" && !((q != "") && !startswith f q)) := rfl
  rw [hred, hj]
  by_cases hq : q = ""
  · subst hq
    have hsw : startswith f "" = true := by
      unfold startswith
      exact List.isPrefixOf_iff_prefix.mpr List.nil_prefix
    rw [hsw]
    simp
  · have hq2 : (q != "") = true := by simpa using hq
    rw [hq2]
    simp

/-- A string starting with `q` still starts with `q` after appending. -/
theorem startswith_append (s x q : String) (h : startswith s q = true) :
    startswith (s ++ x) q = true := by
  unfold startswith at h ⊢
  rw [String.data_append]
  exact List.isPrefixOf_iff_prefix.mpr
    ((List.isPrefixOf_iff_prefix.mp h).trans (List.prefix_append _ _))

/-- C10: over any store of saved run records (filenames end in `.json`)
and any non-`None` query `q`, `list_results q` returns exactly the records
whose stored filename begins with `q`; since filenames produced by
`save_result` begin with the strategy name, a record of any strategy whose
name extends `q` is included — the filter is prefix matching on the
filename, not equality on the record's strategy field. -/
theorem list_results_prefix_semantics (store : List (String × RunRecord))
    (q : String) (hjson : ∀ p ∈ store, endswith p.1 ".json" = true) :
    (∀ r : RunRecord, r ∈ list_results store (some q) ↔
      ∃ f : String, (f, r) ∈ store ∧ startswith f q = true) ∧
    (∀ (name t rid : String) (r : RunRecord),
      (save_filename name t rid, r) ∈ store → startswith name q = true →
      r ∈ list_results store (some q)) := by
  have hmem : ∀ r : RunRecord, r ∈ list_results store (some q) ↔
      ∃ f, (f, r) ∈ store ∧ startswith f q = true := by
    intro r
    rw [list_results, (List.perm_insertionSort _ _).mem_iff, List.mem_map]
    constructor
    · rintro ⟨p, hp, rfl⟩
      rw [List.mem_filter] at hp
      refine ⟨p.1, by simpa using hp.1, ?_⟩
      rw [← keep_file_eq q p.1 (hjson p hp.1)]
      exact hp.2
    · rintro ⟨f, hf, hsw⟩
      refine ⟨(f, r), List.mem_filter.mpr ⟨hf, ?_⟩, rfl⟩
      rw [keep_file_eq q f (hjson _ hf)]
      exact hsw
  refine ⟨hmem, ?_⟩
  intro name t rid r hstore hq
  refine (hmem r).mpr ⟨save_filename name t rid, hstore, ?_⟩
  have h1 := startswith_append name "_" q hq
  have h2 := startswith_append _ t q h1
  have h3 := startswith_append _ "_" q h2
  have h4 := startswith_append _ rid q h3
  have h5 := startswith_append _ ".json" q h4
  exact h5

/-- Two concrete records, one saved under strategy `ma` and one under
strategy `ma_crossover`. -/
def cexRecord1 : RunRecord := ⟨"aaaaaaaa", "20260101_000000", "ma", [], [], []⟩

def cexRecord2 : RunRecord :=
  ⟨"bbbbbbbb", "20260102_000000", "ma_crossover", [], [], []⟩

def cexStore : List (String × RunRecord) :=
  [(save_filename "ma" "20260101_000000" "aaaaaaaa", cexRecord1),
   (save_filename "ma_crossover" "20260102_000000" "bbbbbbbb", cexRecord2)]

/-- Closed witness for `list_results_prefix_semantics`: querying for `ma`
also returns the record saved under `ma_crossover`. -/
theorem list_results_prefix_semantics_witness :
    cexRecord2 ∈ list_results cexStore (some "ma") :=
  (list_results_prefix_semantics cexStore "ma" (by decide)).2
    "ma_crossover" "20260102_000000" "bbbbbbbb" cexRecord2 (by decide)
    (by decide)

/-! ## Strategy catalog (`backtest/strategy.py`)

Bool/Option combinators for the vectorized pandas operations the
strategies use.  `none` is a `NaN`; any comparison against `NaN` is
`False` in Python, hence `false` here. -/

/-- `a > b` on float series entries; false when either side is NaN. -/
def oGt : Option ℚ → Option ℚ → Bool
  | some a, some b => decide (b < a)
  | _, _ => false

/-- `a < b` on float series entries; false when either side is NaN. -/
def oLt (a b : Option ℚ) : Bool := oGt b a

def oAdd : Option ℚ → Option ℚ → Option ℚ
  | some a, some b => some (a + b)
  | _, _ => none

def oSub : Option ℚ → Option ℚ → Option ℚ
  | some a, some b => some (a - b)
  | _, _ => none

/-- Float series division, `none` for NaN operands and for a zero
denominator.  (A zero denominator under a *nonzero* numerator is `inf` in
pandas, not NaN; the only division so modelled below is the factor-score
normalisation `(x - min)/(max - min)`, whose numerator is provably 0
whenever its denominator is, making that case `0/0 = NaN`.) -/
def oDivNZ : Option ℚ → Option ℚ → Option ℚ
  | some a, some b => if b = 0 then none else some (a / b)
  | _, _ => none

/-- `(bool_series).astype(int)`. -/
def astype_int (bs : List Bool) : List ℚ :=
  bs.map (fun b => if b then 1 else 0)

/-- The window of length `w` ending at index `i`, provided the window is
complete and free of NaN (pandas `rolling(w)` with its default
`min_periods = w`, which counts non-NaN observations). -/
def windowAt (w i : ℕ) (xs : List (Option ℚ)) : Option (List ℚ) :=
  if i + 1 < w then none
  else (List.range w).mapM (fun j => xs.getD (i + 1 - w + j) none)

/-- `series.rolling(w).agg(...)`. -/
def rollingAgg (agg : List ℚ → ℚ) (w : ℕ) (xs : List (Option ℚ)) :
    List (Option ℚ) :=
  (List.range xs.length).map (fun i => (windowAt w i xs).map agg)

/-- `series.rolling(w).mean()`. -/
def rollingMean (w : ℕ) (xs : List (Option ℚ)) : List (Option ℚ) :=
  rollingAgg (fun l => l.sum / l.length) w xs

/-- `series.rolling(w).min()`. -/
def rollingMin (w : ℕ) (xs : List (Option ℚ)) : List (Option ℚ) :=
  rollingAgg (fun l => (l.min?).getD 0) w xs

/-- `series.rolling(w).max()`. -/
def rollingMax (w : ℕ) (xs : List (Option ℚ)) : List (Option ℚ) :=
  rollingAgg (fun l => (l.max?).getD 0) w xs

/-- The square of `series.rolling(w).std()` (sample variance, `ddof = 1`);
tracked instead of the std itself because `ℚ` has no square roots — every
use below compares a band `ma ± k·std`, decided square-free by `sqrtLt`.
`rolling(1).std()` is NaN in pandas (one observation, `ddof = 1`). -/
def rollingVar (w : ℕ) (xs : List (Option ℚ)) : List (Option ℚ) :=
  if w ≤ 1 then List.replicate xs.length none
  else
    rollingAgg
      (fun l => (l.map (fun x => (x - l.sum / l.length) ^ 2)).sum /
        ((l.length : ℚ) - 1)) w xs

/-- Linear-interpolation quantile of a window (pandas default
`interpolation='linear'`). -/
def quantileLinear (qq : ℚ) (l : List ℚ) : ℚ :=
  let ys := List.insertionSort (fun a b : ℚ => a ≤ b) l
  let h : ℚ := ((ys.length : ℚ) - 1) * qq
  let lo : ℕ := (⌊h⌋).toNat
  let frac : ℚ := h - lo
  ys.getD lo 0 + frac * (ys.getD (lo + 1) (ys.getD lo 0) - ys.getD lo 0)

/-- `series.rolling(w).quantile(qq)`. -/
def rollingQuantile (qq : ℚ) (w : ℕ) (xs : List (Option ℚ)) :
    List (Option ℚ) :=
  rollingAgg (quantileLinear qq) w xs

/-- `series.diff(k)` over an Option series; NaN head and NaN propagation. -/
def diffN (k : ℕ) (xs : List (Option ℚ)) : List (Option ℚ) :=
  (List.range xs.length).map (fun i =>
    if i < k then none
    else
      match xs.getD i none, xs.getD (i - k) none with
      | some a, some b => some (a - b)
      | _, _ => none)

/-- `series.pct_change(k)` over a NaN-free price column: NaN for the first
`k` entries, `x(i)/x(i-k) - 1` after.  A zero base price would be
`inf`/`NaN` in pandas and is modelled as `none`; prices are positive
in practice and no claim depends on that row. -/
def pctChangeN (k : ℕ) (xs : List ℚ) : List (Option ℚ) :=
  (List.range xs.length).map (fun i =>
    if i < k then none
    else if xs.getD (i - k) 0 = 0 then none
    else some (xs.getD i 0 / xs.getD (i - k) 0 - 1))

/-- `series.ewm(span, adjust=False).mean()` tail recursion:
`y(t) = (1-α)·y(t-1) + α·x(t)` with `α = 2/(span+1)`, `y(0) = x(0)`. -/
def ewmAux (a : ℚ) (prev : ℚ) : List ℚ → List ℚ
  | [] => []
  | x :: xs =>
    let y := (1 - a) * prev + a * x
    y :: ewmAux a y xs

def ewmMean (span : ℕ) (xs : List ℚ) : List ℚ :=
  match xs with
  | [] => []
  | x :: rest => x :: ewmAux (2 / ((span : ℚ) + 1)) x rest

/-- `macd = close.ewm(fast).mean() - close.ewm(slow).mean()`. -/
def macdLine (fast slow : ℕ) (closes : List ℚ) : List ℚ :=
  List.zipWith (· - ·) (ewmMean fast closes) (ewmMean slow closes)

/-- `close.diff()`. -/
def deltaSeries (closes : List ℚ) : List (Option ℚ) :=
  (List.range closes.length).map (fun i =>
    if i = 0 then none else some (closes.getD i 0 - closes.getD (i - 1) 0))

/-- `delta.where(delta > 0, 0)`: the gain leg; the head NaN fails the
`> 0` test and is replaced by 0. -/
def gainSeries (closes : List ℚ) : List (Option ℚ) :=
  (deltaSeries closes).map (fun o =>
    match o with
    | none => some 0
    | some d => some (if 0 < d then d else 0))

/-- `-delta.where(delta < 0, 0)`: the loss leg (nonnegative). -/
def lossSeries (closes : List ℚ) : List (Option ℚ) :=
  (deltaSeries closes).map (fun o =>
    match o with
    | none => some 0
    | some d => some (if d < 0 then -d else 0))

/-- `rsi = 100 - 100/(1 + gain/loss)` on the rolling means.  When the
rolling loss is 0 with a nonzero gain, `gain/loss = inf` and
the float expression evaluates to exactly `100.0`; when both are 0 it is
NaN (`0/0`). -/
def rsiSeries (period : ℕ) (closes : List ℚ) : List (Option ℚ) :=
  let g := rollingMean period (gainSeries closes)
  let l := rollingMean period (lossSeries closes)
  (List.range closes.length).map (fun i =>
    match g.getD i none, l.getD i none with
    | some gv, some lv =>
      if lv = 0 then (if gv = 0 then none else some 100)
      else some (100 - 100 / (1 + gv / lv))
    | _, _ => none)

/-- Decides `k·√v < d` (for `v ≥ 0`) without square roots. -/
def sqrtLt (k v d : ℚ) : Bool :=
  if 0 ≤ k then decide (0 < d ∧ k ^ 2 * v < d ^ 2)
  else if v = 0 then decide (0 < d)
  else decide (0 ≤ d ∨ d ^ 2 < k ^ 2 * v)

/-- `close < ma - k·std` (below the lower Bollinger band), `v = std²`. -/
def belowLowerBand (k : ℚ) (ma v : Option ℚ) (c : ℚ) : Bool :=
  match ma, v with
  | some m, some vv => sqrtLt k vv (m - c)
  | _, _ => false

/-- `close > ma + k·std` (above the upper Bollinger band), `v = std²`. -/
def aboveUpperBand (k : ℚ) (ma v : Option ℚ) (c : ℚ) : Bool :=
  match ma, v with
  | some m, some vv => sqrtLt k vv (c - m)
  | _, _ => false

/-- The per-bar `holding` state machine shared by the stateful strategies:
`if holding == 0 and enter(i): holding = 1 elif holding == 1 and exit(i):
holding = 0`, emitting the post-update holding at every bar. -/
def holdLoopAux (enter exitc : ℕ → Bool) (h : Bool) : List ℕ → List Bool
  | [] => []
  | i :: is =>
    let h2 := if !h && enter i then true else if h && exitc i then false else h
    h2 :: holdLoopAux enter exitc h2 is

def holdLoop (enter exitc : ℕ → Bool) (n : ℕ) : List Bool :=
  holdLoopAux enter exitc false (List.range n)

/-- `(close / close.expanding().max()) - 1`, the trailing drawdown used by
the stop-loss strategies.  (For a nonpositive running maximum — impossible
for real prices — pandas would give `inf`/NaN where `ℚ` division
totalises; only the comparison's Bool value is consumed.) -/
def drawdownSeries (closes : List ℚ) : List ℚ :=
  List.zipWith (fun c m => c / m - 1) closes (cummax closes)

/-- `(x - x.rolling(250).min()) / (x.rolling(250).max() - x.rolling(250).min())`,
the 0-to-1 factor normalisation of `value_momentum_quality_score` (the
window 250 is hardcoded in the source). -/
def normalize250 (xs : List (Option ℚ)) : List (Option ℚ) :=
  let mn := rollingMin 250 xs
  let mx := rollingMax 250 xs
  (List.range xs.length).map (fun i =>
    oDivNZ (oSub (xs.getD i none) (mn.getD i none))
      (oSub (mx.getD i none) (mn.getD i none)))

theorem astype_int_length (bs : List Bool) :
    (astype_int bs).length = bs.length := List.length_map _ _

theorem astype_int_bounds (bs : List Bool) :
    ∀ x ∈ astype_int bs, 0 ≤ x ∧ x ≤ 1 := by
  intro x hx
  rcases List.mem_map.mp hx with ⟨b, _, rfl⟩
  cases b <;> norm_num

theorem holdLoopAux_length (enter exitc : ℕ → Bool) (h : Bool) (is : List ℕ) :
    (holdLoopAux enter exitc h is).length = is.length := by
  induction is generalizing h with
  | nil => rfl
  | cons i is ih => simp [holdLoopAux, ih]

theorem holdLoop_length (enter exitc : ℕ → Bool) (n : ℕ) :
    (holdLoop enter exitc n).length = n := by
  rw [holdLoop, holdLoopAux_length, List.length_range]

/-- The close column. -/
def closesOf (df : List Bar) : List ℚ := df.map Bar.close

/-- The close column as a float series. -/
def closesO (df : List Bar) : List (Option ℚ) := df.map (fun b => some b.close)

/-! ### The strategy catalog: parameters and `generate_signals`, one pair
per `@register_strategy` class of `backtest/strategy.py`, in source
order.  A bar with all-zero enrichment columns stands for `default`. -/

structure MA_Crossover_Params where
  fast : ℕ := 10
  slow : ℕ := 30

def MA_Crossover_Strategy (p : MA_Crossover_Params) (df : List Bar) : List ℚ :=
  let fast_ma := rollingMean p.fast (closesO df)
  let slow_ma := rollingMean p.slow (closesO df)
  astype_int ((List.range df.length).map (fun i =>
    oGt (fast_ma.getD i none) (slow_ma.getD i none)))

structure RSI_Params where
  period : ℕ := 14
  buy_threshold : ℚ := 30
  sell_threshold : ℚ := 70

def RSI_Strategy (p : RSI_Params) (df : List Bar) : List ℚ :=
  let rsi := rsiSeries p.period (closesOf df)
  astype_int (holdLoop
    (fun i => oLt (rsi.getD i none) (some p.buy_threshold))
    (fun i => oGt (rsi.getD i none) (some p.sell_threshold))
    df.length)

structure MACD_Params where
  fast : ℕ := 12
  slow : ℕ := 26
  signal : ℕ := 9

def MACD_Strategy (p : MACD_Params) (df : List Bar) : List ℚ :=
  let macd := macdLine p.fast p.slow (closesOf df)
  let signal_line := ewmMean p.signal macd
  astype_int ((List.range df.length).map (fun i =>
    decide (signal_line.getD i 0 < macd.getD i 0)))

structure Trend_Momentum_Params where
  macd_fast : ℕ := 12
  macd_slow : ℕ := 26
  macd_signal : ℕ := 9
  rsi_period : ℕ := 14
  rsi_buy_max : ℚ := 65

def Trend_Momentum_Strategy (p : Trend_Momentum_Params) (df : List Bar) :
    List ℚ :=
  let macd := macdLine p.macd_fast p.macd_slow (closesOf df)
  let signal_line := ewmMean p.macd_signal macd
  let rsi := rsiSeries p.rsi_period (closesOf df)
  astype_int ((List.range df.length).map (fun i =>
    decide (signal_line.getD i 0 < macd.getD i 0) &&
      oLt (rsi.getD i none) (some p.rsi_buy_max)))

structure MeanReversion_Volatility_Params where
  bb_period : ℕ := 20
  bb_std : ℚ := 2
  rsi_period : ℕ := 14
  rsi_oversold : ℚ := 35
  rsi_overbought : ℚ := 65

def MeanReversion_Volatility_Strategy (p : MeanReversion_Volatility_Params)
    (df : List Bar) : List ℚ :=
  let ma := rollingMean p.bb_period (closesO df)
  let v := rollingVar p.bb_period (closesO df)
  let rsi := rsiSeries p.rsi_period (closesOf df)
  astype_int (holdLoop
    (fun i =>
      belowLowerBand p.bb_std (ma.getD i none) (v.getD i none)
        ((closesOf df).getD i 0) &&
      oLt (rsi.getD i none) (some p.rsi_oversold))
    (fun i =>
      aboveUpperBand p.bb_std (ma.getD i none) (v.getD i none)
        ((closesOf df).getD i 0) ||
      oGt (rsi.getD i none) (some p.rsi_overbought))
    df.length)

structure Volume_Trend_Params where
  fast_ma : ℕ := 5
  slow_ma : ℕ := 20
  volume_period : ℕ := 20
  volume_factor : ℚ := 12 / 10

def VolumeTrend_Strategy (p : Volume_Trend_Params) (df : List Bar) : List ℚ :=
  let fast_ma := rollingMean p.fast_ma (closesO df)
  let slow_ma := rollingMean p.slow_ma (closesO df)
  let avg_volume := rollingMean p.volume_period (df.map (fun b => some b.volume))
  astype_int ((List.range df.length).map (fun i =>
    oGt (fast_ma.getD i none) (slow_ma.getD i none) &&
      oGt (some ((df.getD i default).volume))
        ((avg_volume.getD i none).map (fun a => a * p.volume_factor))))

structure Value_Revision_Trend_Params where
  pe_max : ℚ := 20
  ma_period : ℕ := 60
  revision_lookback : ℕ := 1

def Value_Revision_Trend_Strategy (p : Value_Revision_Trend_Params)
    (df : List Bar) : List ℚ :=
  let revision := diffN p.revision_lookback (df.map (fun b => some b.net_profit_growth))
  let ma := rollingMean p.ma_period (closesO df)
  astype_int ((List.range df.length).map (fun i =>
    decide ((df.getD i default).pe < p.pe_max) &&
      oGt (revision.getD i none) (some 0) &&
      oGt (some ((df.getD i default).close)) (ma.getD i none)))

structure Quality_Growth_PEG_Params where
  roe_min : ℚ := 15
  peg_min : ℚ := 1 / 2
  peg_max : ℚ := 3 / 2
  strong_roe : ℚ := 20
  strong_peg_max : ℚ := 12 / 10

/-- Two masked assignments (`0.6` for the moderate mask, then `1.0`
overriding on the strong mask), i.e. strong ↦ 1, moderate-only ↦ 0.6,
else 0. -/
def Quality_Growth_PEG_Strategy (p : Quality_Growth_PEG_Params)
    (df : List Bar) : List ℚ :=
  df.map (fun b =>
    if p.strong_roe < b.roe ∧ p.peg_min < b.peg ∧ b.peg < p.strong_peg_max then 1
    else if p.roe_min < b.roe ∧ p.peg_min < b.peg ∧ b.peg < p.peg_max then 6 / 10
    else 0)

structure Leader_Momentum_Drawdown_Params where
  momentum_period : ℕ := 20
  stop_loss : ℚ := -(8 / 100)
  market_cap_min : ℚ := 500

def Leader_Momentum_Drawdown_Strategy (p : Leader_Momentum_Drawdown_Params)
    (df : List Bar) : List ℚ :=
  let momentum := pctChangeN p.momentum_period (closesOf df)
  let drawdown := drawdownSeries (closesOf df)
  astype_int (holdLoop
    (fun i =>
      decide (p.market_cap_min < (df.getD i default).total_mv) &&
      oGt (momentum.getD i none) (some 0) &&
      decide (p.stop_loss < drawdown.getD i 0))
    (fun i => !(decide (p.stop_loss < drawdown.getD i 0)))
    df.length)

structure HighMargin_Momentum_Industry_Params where
  margin_min : ℚ := 20 / 100
  momentum_period : ℕ := 20
  relative_strength_min : ℚ := 105 / 100

def HighMargin_Momentum_Industry_Strategy
    (p : HighMargin_Momentum_Industry_Params) (df : List Bar) : List ℚ :=
  let momentum := pctChangeN p.momentum_period (closesOf df)
  let ma250 := rollingMean 250 (closesO df)
  astype_int ((List.range df.length).map (fun i =>
    decide (p.margin_min < (df.getD i default).gross_margin) &&
      oGt (momentum.getD i none) (some 0) &&
      oGt (some ((df.getD i default).close))
        ((ma250.getD i none).map (fun a => a * p.relative_strength_min))))

structure Prosperity_Rotation_Params where
  pmi_threshold : ℚ := 50
  roe_min : ℚ := 10 / 100
  net_profit_growth_min : ℚ := 0

def Prosperity_Rotation_Strategy (p : Prosperity_Rotation_Params)
    (df : List Bar) : List ℚ :=
  df.map (fun b =>
    if p.pmi_threshold < b.pmi ∧ p.roe_min < b.roe ∧
        p.net_profit_growth_min < b.net_profit_growth then 1 else 0)

structure Defensive_Offensive_Switch_Params where
  vol_threshold : ℚ := 30 / 100
  momentum_period : ℕ := 20
  low_vol_window : ℕ := 60

def Defensive_Offensive_Switch_Strategy
    (p : Defensive_Offensive_Switch_Params) (df : List Bar) : List ℚ :=
  let offensive := pctChangeN p.momentum_period (closesOf df)
  let avg_vol := rollingMean p.low_vol_window (df.map (fun b => some b.volatility))
  (List.range df.length).map (fun i =>
    if p.vol_threshold < (df.getD i default).mkt_vol then
      (if oLt (some ((df.getD i default).volatility)) (avg_vol.getD i none)
        then 1 else 0)
    else
      (if oGt (offensive.getD i none) (some 0) then 1 else 0))

structure Leader_Valuation_Weight_Params where
  market_cap_min : ℚ := 1000
  pe_cheap : ℚ := 15
  pe_expensive : ℚ := 40

def Leader_Valuation_Weight_Strategy (p : Leader_Valuation_Weight_Params)
    (df : List Bar) : List ℚ :=
  df.map (fun b =>
    if p.market_cap_min < b.total_mv then
      (if b.pe < p.pe_cheap then 1
       else if b.pe < p.pe_expensive then 1 / 2
       else 2 / 10)
    else 0)

structure Value_Momentum_Quality_Params where
  lookback : ℕ := 20

def Value_Momentum_Quality_Strategy (p : Value_Momentum_Quality_Params)
    (df : List Bar) : List ℚ :=
  let value_score := normalize250
    (df.map (fun b => if b.pe = 0 then none else some (1 / b.pe)))
  let mom_score := normalize250 (pctChangeN p.lookback (closesOf df))
  let quality_score := normalize250 (df.map (fun b => some b.roe))
  let combined := (List.range df.length).map (fun i =>
    (oAdd (oAdd (value_score.getD i none) (mom_score.getD i none))
      (quality_score.getD i none)).map (fun s => s / 3))
  let threshold := rollingQuantile (7 / 10) 250 combined
  astype_int ((List.range df.length).map (fun i =>
    oGt (combined.getD i none) (threshold.getD i none)))

structure LowVal_DebtRepair_Params where
  pe_max : ℚ := 30
  debt_reduction_lookback : ℕ := 20

def LowVal_DebtRepair_Strategy (p : LowVal_DebtRepair_Params)
    (df : List Bar) : List ℚ :=
  let debt_repair := diffN p.debt_reduction_lookback
    (df.map (fun b => some b.debt_to_assets))
  astype_int ((List.range df.length).map (fun i =>
    decide ((df.getD i default).pe < p.pe_max) &&
      oLt (debt_repair.getD i none) (some 0)))

structure Leader_Quality_Value_Params where
  market_cap_min : ℚ := 500
  roe_min : ℚ := 12 / 100
  pe_max : ℚ := 40

def Leader_Quality_Value_Strategy (p : Leader_Quality_Value_Params)
    (df : List Bar) : List ℚ :=
  df.map (fun b =>
    if p.market_cap_min < b.total_mv ∧ p.roe_min < b.roe ∧ b.pe < p.pe_max
    then 1 else 0)

structure Dividend_LowVol_Trend_Params where
  dividend_min : ℚ := 15 / 1000
  vol_window : ℕ := 60
  ma_trend : ℕ := 250

def Dividend_LowVol_Trend_Strategy (p : Dividend_LowVol_Trend_Params)
    (df : List Bar) : List ℚ :=
  let avg_vol := rollingMean p.vol_window (df.map (fun b => some b.volatility))
  let ma250 := rollingMean p.ma_trend (closesO df)
  astype_int ((List.range df.length).map (fun i =>
    decide (p.dividend_min < (df.getD i default).dividend_yield) &&
      oLt (some ((df.getD i default).volatility)) (avg_vol.getD i none) &&
      oGt (some ((df.getD i default).close)) (ma250.getD i none)))

structure Momentum_Liquidity_Params where
  momentum_period : ℕ := 20
  turnover_max : ℚ := 5
  market_cap_min : ℚ := 500

def Momentum_Liquidity_Strategy (p : Momentum_Liquidity_Params)
    (df : List Bar) : List ℚ :=
  let momentum := pctChangeN p.momentum_period (closesOf df)
  astype_int ((List.range df.length).map (fun i =>
    oGt (momentum.getD i none) (some 0) &&
      decide ((df.getD i default).turnover < p.turnover_max) &&
      decide (p.market_cap_min < (df.getD i default).total_mv)))

structure Quality_Value_Stable_Params where
  pe_max : ℚ := 40
  pb_max : ℚ := 5
  margin_stability : ℚ := -(1 / 100)
  receivables_max : ℚ := 120

def Quality_Value_Stable_Strategy (p : Quality_Value_Stable_Params)
    (df : List Bar) : List ℚ :=
  let margin_diff := diffN 20 (df.map (fun b => some b.gross_margin))
  astype_int ((List.range df.length).map (fun i =>
    (decide ((df.getD i default).pe < p.pe_max) &&
      decide ((df.getD i default).pb < p.pb_max)) &&
      oGt (margin_diff.getD i none) (some p.margin_stability) &&
      decide ((df.getD i default).receivables_days < p.receivables_max)))

structure FCF_NoTrap_Params where
  fcf_yield_min : ℚ := 15 / 1000
  revision_period : ℕ := 20
  debt_max : ℚ := 60 / 100

def FCF_NoTrap_Strategy (p : FCF_NoTrap_Params) (df : List Bar) : List ℚ :=
  let revision := diffN p.revision_period
    (df.map (fun b => some b.net_profit_growth))
  astype_int ((List.range df.length).map (fun i =>
    decide (p.fcf_yield_min < (df.getD i default).fcf_yield) &&
      oGt (revision.getD i none) (some 0) &&
      decide ((df.getD i default).debt_to_assets < p.debt_max)))

structure Reversion_Value_Industry_Params where
  reversion_period : ℕ := 20
  pe_max : ℚ := 30
  idx_trend_filter : Bool := true

def Reversion_Value_Industry_Strategy (p : Reversion_Value_Industry_Params)
    (df : List Bar) : List ℚ :=
  let reversion := pctChangeN p.reversion_period (closesOf df)
  astype_int ((List.range df.length).map (fun i =>
    oLt (reversion.getD i none) (some (-(5 / 100))) &&
      decide ((df.getD i default).pe < p.pe_max) &&
      (if p.idx_trend_filter then decide ((df.getD i default).idx_trend = 1)
       else true)))

structure Tech_Prosperity_Params where
  rev_accel_period : ℕ := 20
  momentum_period : ℕ := 20
  gross_margin_min : ℚ := 30 / 100

def Tech_Prosperity_Strategy (p : Tech_Prosperity_Params) (df : List Bar) :
    List ℚ :=
  let rev_accel := diffN p.rev_accel_period
    (df.map (fun b => some b.revenue_growth))
  let momentum := pctChangeN p.momentum_period (closesOf df)
  astype_int ((List.range df.length).map (fun i =>
    oGt (rev_accel.getD i none) (some 0) &&
      oGt (momentum.getD i none) (some 0) &&
      decide (p.gross_margin_min < (df.getD i default).gross_margin)))

structure Shareholder_Return_Params where
  dividend_min : ℚ := 2 / 100
  vol_window : ℕ := 60
  roe_min : ℚ := 12 / 100

def Shareholder_Return_Strategy (p : Shareholder_Return_Params)
    (df : List Bar) : List ℚ :=
  let avg_vol := rollingMean p.vol_window (df.map (fun b => some b.volatility))
  astype_int ((List.range df.length).map (fun i =>
    decide (p.dividend_min < (df.getD i default).dividend_yield) &&
      oLt (some ((df.getD i default).volatility)) (avg_vol.getD i none) &&
      decide (p.roe_min < (df.getD i default).roe)))

structure Drawdown_Control_Momentum_Params where
  momentum_period : ℕ := 20
  mdd_threshold : ℚ := -(10 / 100)
  stop_loss_window : ℕ := 5

def Drawdown_Control_Momentum_Strategy
    (p : Drawdown_Control_Momentum_Params) (df : List Bar) : List ℚ :=
  let momentum := pctChangeN p.momentum_period (closesOf df)
  let drawdown := drawdownSeries (closesOf df)
  let circuit := rollingMin p.stop_loss_window
    ((List.range df.length).map (fun i =>
      some (if p.mdd_threshold < drawdown.getD i 0 then (1 : ℚ) else 0)))
  astype_int ((List.range df.length).map (fun i =>
    oGt (momentum.getD i none) (some 0) &&
      oGt (circuit.getD i none) (some 0)))

structure Volatility_Target_Params where
  vol_target : ℚ := 15 / 100
  momentum_period : ℕ := 20

/-- `momentum.astype(float) * clip(vol_target / volatility.replace(0, 0.2),
0, 1.0)`. -/
def Volatility_Target_Strategy (p : Volatility_Target_Params)
    (df : List Bar) : List ℚ :=
  let momentum := pctChangeN p.momentum_period (closesOf df)
  (List.range df.length).map (fun i =>
    let v := (df.getD i default).volatility
    let vol := if v = 0 then 2 / 10 else v
    let target_weight := min (max (p.vol_target / vol) 0) 1
    (if oGt (momentum.getD i none) (some 0) then (1 : ℚ) else 0) *
      target_weight)

structure Index_Trend_Overlay_Params where
  ma_fast : ℕ := 20
  ma_slow : ℕ := 60

/-- The source ignores its own parameters: the condition is the hardcoded
`(roe > 0.10) & (pe < 30) & (idx_trend == 1)`. -/
def Index_Trend_Overlay_Strategy (_p : Index_Trend_Overlay_Params)
    (df : List Bar) : List ℚ :=
  df.map (fun b =>
    if 10 / 100 < b.roe ∧ b.pe < 30 ∧ b.idx_trend = 1 then 1 else 0)

/-- The strategy catalog: one constructor per `@register_strategy` class,
carrying that class's (validated) parameters. -/
inductive RegisteredStrategy where
  | ma_crossover (p : MA_Crossover_Params)
  | rsi_reversion (p : RSI_Params)
  | macd_trend (p : MACD_Params)
  | trend_momentum_combo (p : Trend_Momentum_Params)
  | mean_reversion_volatility (p : MeanReversion_Volatility_Params)
  | volume_trend_confirmation (p : Volume_Trend_Params)
  | value_revision_trend (p : Value_Revision_Trend_Params)
  | quality_growth_peg (p : Quality_Growth_PEG_Params)
  | leader_momentum_drawdown (p : Leader_Momentum_Drawdown_Params)
  | high_margin_momentum_industry (p : HighMargin_Momentum_Industry_Params)
  | prosperity_rotation (p : Prosperity_Rotation_Params)
  | defensive_offensive_switch (p : Defensive_Offensive_Switch_Params)
  | leader_valuation_weight (p : Leader_Valuation_Weight_Params)
  | value_momentum_quality_score (p : Value_Momentum_Quality_Params)
  | lowval_debt_repair (p : LowVal_DebtRepair_Params)
  | leader_quality_value (p : Leader_Quality_Value_Params)
  | dividend_lowvol_trend (p : Dividend_LowVol_Trend_Params)
  | momentum_liquidity (p : Momentum_Liquidity_Params)
  | quality_value_stable (p : Quality_Value_Stable_Params)
  | fcf_no_trap (p : FCF_NoTrap_Params)
  | reversion_value_industry (p : Reversion_Value_Industry_Params)
  | tech_prosperity (p : Tech_Prosperity_Params)
  | shareholder_return (p : Shareholder_Return_Params)
  | drawdown_control_momentum (p : Drawdown_Control_Momentum_Params)
  | vol_target_multi_factor (p : Volatility_Target_Params)
  | index_trend_overlay (p : Index_Trend_Overlay_Params)

/-- The registry name (`cls.name`) under which each strategy is
registered. -/
def RegisteredStrategy.name : RegisteredStrategy → String
  | .ma_crossover _ => "ma_crossover"
  | .rsi_reversion _ => "rsi_reversion"
  | .macd_trend _ => "macd_trend"
  | .trend_momentum_combo _ => "trend_momentum_combo"
  | .mean_reversion_volatility _ => "mean_reversion_volatility"
  | .volume_trend_confirmation _ => "volume_trend_confirmation"
  | .value_revision_trend _ => "value_revision_trend"
  | .quality_growth_peg _ => "quality_growth_peg"
  | .leader_momentum_drawdown _ => "leader_momentum_drawdown"
  | .high_margin_momentum_industry _ => "high_margin_momentum_industry"
  | .prosperity_rotation _ => "prosperity_rotation"
  | .defensive_offensive_switch _ => "defensive_offensive_switch"
  | .leader_valuation_weight _ => "leader_valuation_weight"
  | .value_momentum_quality_score _ => "value_momentum_quality_score"
  | .lowval_debt_repair _ => "lowval_debt_repair"
  | .leader_quality_value _ => "leader_quality_value"
  | .dividend_lowvol_trend _ => "dividend_lowvol_trend"
  | .momentum_liquidity _ => "momentum_liquidity"
  | .quality_value_stable _ => "quality_value_stable"
  | .fcf_no_trap _ => "fcf_no_trap"
  | .reversion_value_industry _ => "reversion_value_industry"
  | .tech_prosperity _ => "tech_prosperity"
  | .shareholder_return _ => "shareholder_return"
  | .drawdown_control_momentum _ => "drawdown_control_momentum"
  | .vol_target_multi_factor _ => "vol_target_multi_factor"
  | .index_trend_overlay _ => "index_trend_overlay"

/-- `generate_signals` of each registered strategy. -/
def RegisteredStrategy.generate_signals : RegisteredStrategy → List Bar → List ℚ
  | .ma_crossover p => MA_Crossover_Strategy p
  | .rsi_reversion p => RSI_Strategy p
  | .macd_trend p => MACD_Strategy p
  | .trend_momentum_combo p => Trend_Momentum_Strategy p
  | .mean_reversion_volatility p => MeanReversion_Volatility_Strategy p
  | .volume_trend_confirmation p => VolumeTrend_Strategy p
  | .value_revision_trend p => Value_Revision_Trend_Strategy p
  | .quality_growth_peg p => Quality_Growth_PEG_Strategy p
  | .leader_momentum_drawdown p => Leader_Momentum_Drawdown_Strategy p
  | .high_margin_momentum_industry p => HighMargin_Momentum_Industry_Strategy p
  | .prosperity_rotation p => Prosperity_Rotation_Strategy p
  | .defensive_offensive_switch p => Defensive_Offensive_Switch_Strategy p
  | .leader_valuation_weight p => Leader_Valuation_Weight_Strategy p
  | .value_momentum_quality_score p => Value_Momentum_Quality_Strategy p
  | .lowval_debt_repair p => LowVal_DebtRepair_Strategy p
  | .leader_quality_value p => Leader_Quality_Value_Strategy p
  | .dividend_lowvol_trend p => Dividend_LowVol_Trend_Strategy p
  | .momentum_liquidity p => Momentum_Liquidity_Strategy p
  | .quality_value_stable p => Quality_Value_Stable_Strategy p
  | .fcf_no_trap p => FCF_NoTrap_Strategy p
  | .reversion_value_industry p => Reversion_Value_Industry_Strategy p
  | .tech_prosperity p => Tech_Prosperity_Strategy p
  | .shareholder_return p => Shareholder_Return_Strategy p
  | .drawdown_control_momentum p => Drawdown_Control_Momentum_Strategy p
  | .vol_target_multi_factor p => Volatility_Target_Strategy p
  | .index_trend_overlay p => Index_Trend_Overlay_Strategy p

/-! ### The PositionSeries invariant -/

theorem astype_int_valid_output (bs : List Bool) (n : ℕ) (hb : bs.length = n) :
    (astype_int bs).length = n ∧ ∀ x ∈ astype_int bs, 0 ≤ x ∧ x ≤ 1 :=
  ⟨by rw [astype_int_length, hb], astype_int_bounds bs⟩

theorem map_grade_valid {g : Bar → ℚ} (df : List Bar)
    (hg : ∀ b, 0 ≤ g b ∧ g b ≤ 1) :
    (df.map g).length = df.length ∧ ∀ x ∈ df.map g, 0 ≤ x ∧ x ≤ 1 := by
  refine ⟨List.length_map _ _, ?_⟩
  intro x hx
  rcases List.mem_map.mp hx with ⟨b, _, rfl⟩
  exact hg b

theorem range_map_valid (n : ℕ) (f : ℕ → ℚ) (hf : ∀ i, 0 ≤ f i ∧ f i ≤ 1) :
    ((List.range n).map f).length = n ∧
      ∀ x ∈ (List.range n).map f, 0 ≤ x ∧ x ≤ 1 := by
  refine ⟨by simp, ?_⟩
  intro x hx
  rcases List.mem_map.mp hx with ⟨i, _, rfl⟩
  exact hf i

/-- C6: for every registered strategy in the catalog (under any
parameters) and every input series, `generate_signals` produces a valid
PositionSeries: same length (and hence index) as the input, and every
value in `[0, 1]`. -/
theorem registered_strategy_output_valid (s : RegisteredStrategy)
    (df : List Bar) :
    (s.generate_signals df).length = df.length ∧
    ∀ x ∈ s.generate_signals df, 0 ≤ x ∧ x ≤ 1 := by
  cases s with
  | ma_crossover p => exact astype_int_valid_output _ _ (by simp)
  | rsi_reversion p => exact astype_int_valid_output _ _ (holdLoop_length _ _ _)
  | macd_trend p => exact astype_int_valid_output _ _ (by simp)
  | trend_momentum_combo p => exact astype_int_valid_output _ _ (by simp)
  | mean_reversion_volatility p =>
    exact astype_int_valid_output _ _ (holdLoop_length _ _ _)
  | volume_trend_confirmation p => exact astype_int_valid_output _ _ (by simp)
  | value_revision_trend p => exact astype_int_valid_output _ _ (by simp)
  | quality_growth_peg p =>
    exact map_grade_valid df (fun b => by split_ifs <;> norm_num)
  | leader_momentum_drawdown p =>
    exact astype_int_valid_output _ _ (holdLoop_length _ _ _)
  | high_margin_momentum_industry p =>
    exact astype_int_valid_output _ _ (by simp)
  | prosperity_rotation p =>
    exact map_grade_valid df (fun b => by split_ifs <;> norm_num)
  | defensive_offensive_switch p =>
    exact range_map_valid _ _ (fun i => by split_ifs <;> norm_num)
  | leader_valuation_weight p =>
    exact map_grade_valid df (fun b => by split_ifs <;> norm_num)
  | value_momentum_quality_score p =>
    exact astype_int_valid_output _ _ (by simp)
  | lowval_debt_repair p => exact astype_int_valid_output _ _ (by simp)
  | leader_quality_value p =>
    exact map_grade_valid df (fun b => by split_ifs <;> norm_num)
  | dividend_lowvol_trend p => exact astype_int_valid_output _ _ (by simp)
  | momentum_liquidity p => exact astype_int_valid_output _ _ (by simp)
  | quality_value_stable p => exact astype_int_valid_output _ _ (by simp)
  | fcf_no_trap p => exact astype_int_valid_output _ _ (by simp)
  | reversion_value_industry p => exact astype_int_valid_output _ _ (by simp)
  | tech_prosperity p => exact astype_int_valid_output _ _ (by simp)
  | shareholder_return p => exact astype_int_valid_output _ _ (by simp)
  | drawdown_control_momentum p => exact astype_int_valid_output _ _ (by simp)
  | vol_target_multi_factor p =>
    refine range_map_valid _ _ (fun i => ?_)
    dsimp only
    refine ⟨mul_nonneg ?_ ?_, ?_⟩
    · split_ifs <;> norm_num
    · exact le_min (le_max_right _ _) zero_le_one
    · split_ifs <;>
        first
          | (rw [one_mul]; exact min_le_right _ _)
          | (rw [zero_mul]; exact zero_le_one)
  | index_trend_overlay p =>
    exact map_grade_valid df (fun b => by split_ifs <;> norm_num)

/-- A bar in a macro expansion with strong quality and growth columns
(`roe = 0.2`, `net_profit_growth = 0.1`, `pmi = 60`). -/
def boomBar : Bar :=
  ⟨100, 0, 0, 0, 1 / 5, 0, 1 / 10, 0, 0, 0, 0, 0, 0, 0, 0, 60, 0, 0, 0⟩

/-- Closed witness for `registered_strategy_output_valid`: the
`prosperity_rotation` strategy at its default parameters emits the fully
invested position `1` on `boomBar`, and that value is a valid position. -/
theorem registered_strategy_output_valid_witness :
    (1 : ℚ) ∈ (RegisteredStrategy.prosperity_rotation {}).generate_signals
      [boomBar] ∧ 0 ≤ (1 : ℚ) ∧ (1 : ℚ) ≤ 1 :=
  ⟨by norm_num [RegisteredStrategy.generate_signals,
      Prosperity_Rotation_Strategy, boomBar],
   (registered_strategy_output_valid (.prosperity_rotation {}) [boomBar]).2
     1 (by norm_num [RegisteredStrategy.generate_signals,
       Prosperity_Rotation_Strategy, boomBar])⟩

end Backtest
